import Mathlib

/-! Boost.System: `error_code` and the Win32 error-condition table

A shallow embedding of

* `include/boost/system/detail/error_code.hpp` (class `error_code`, `hash_value`), and
* `include/boost/system/detail/system_category_win32.hpp`
  (`system_category_message_win32`, `system_category_default_error_condition_win32`),

followed by theorems about the embedded functions.

Conventions.
* A C++ `int` is an `Int`; conversions between `int` and `unsigned` are written out
  (`to_unsigned`, `to_int`) and wrap modulo `2^32`.
* A reference or pointer to a category is the category record itself; the record carries
  the address of the object it stands for.
* The anonymous union of `error_code` is a sum type (`error_code.storage`) that records
  which member was written last; `flags_` is kept next to it as in the source.
-/

namespace boost.system

/-! ## Machine integers -/

/-- The conversion `static_cast<unsigned>( x )` of a 32-bit `int`. -/
def to_unsigned (x : Int) : Nat := (x % 4294967296).toNat

/-- The conversion of a 32-bit `unsigned` to `int` (two's complement wrap-around). -/
def to_int (u : Nat) : Int :=
  if u % 4294967296 < 2147483648 then ((u % 4294967296 : Nat) : Int)
  else ((u % 4294967296 : Nat) : Int) - 4294967296

/-! ## Categories -/

/-- Modelled from the spec: `std::error_category`, the category type of the foreign
representation (C++ standard library). `error_code` observes only the address of such an
object (in `value()`) and its display name (in `operator<<`). -/
structure std_error_category where
  addr : Nat
  name : String
deriving DecidableEq, Repr

/-- Modelled from the spec: `error_category` (boost/system/detail/error_category.hpp is not
among the sources). A category is an identity-bearing singleton with a display name, a
numeric identity `id_` (0 means: the object address is the identity), a failure
classification `failed`, and the `std::error_category` it converts to when a
`std::error_code` is constructed from `(value, category)`. `addr` is the address of the
category object. -/
structure error_category where
  id_ : Nat
  addr : Nat
  name : String
  failed : Int → Bool
  std_ : std_error_category

/-- Modelled from the spec: `error_category::operator==` (not among the sources): comparison
is by object identity unless a nonzero numeric identity was registered, in which case the
numeric identities are compared. -/
def error_category.op_eq (lhs rhs : error_category) : Bool :=
  if rhs.id_ = 0 then (lhs.id_ == 0 && lhs.addr == rhs.addr) else lhs.id_ == rhs.id_

/-- Modelled from the spec: `error_category::operator<` (not among the sources): the order
that goes with `op_eq`, by numeric identity first and, for two categories without one, by
object address. -/
def error_category.op_lt (lhs rhs : error_category) : Bool :=
  if lhs.id_ < rhs.id_ then true
  else if lhs.id_ > rhs.id_ then false
  else if rhs.id_ ≠ 0 then false
  else decide (lhs.addr < rhs.addr)

/-- Modelled from the spec: the portable registry category `generic_category()` (not among
the sources). The numeric identity is the one the library registers for it; the addresses
stand for wherever the singleton and its standard counterpart are placed. -/
def generic_category : error_category :=
  { id_ := 0xB2AB117A257EDFD0, addr := 0x601040, name := "generic",
    failed := fun ev => ev != 0, std_ := { addr := 0x602040, name := "generic" } }

/-- Modelled from the spec: the platform category `system_category()` (not among the
sources), a singleton distinct from the generic and the interop category. -/
def system_category : error_category :=
  { id_ := 0xB2AB117A257EDFD1, addr := 0x601060, name := "system",
    failed := fun ev => ev != 0, std_ := { addr := 0x602060, name := "system" } }

/-- Modelled from the spec: the fixed interop marker category `detail::interop_category()`
(boost/system/detail/interop_category.hpp is not among the sources). -/
def detail.interop_category : error_category :=
  { id_ := 0xB2AB117A257EDFD2, addr := 0x601080, name := "std:unknown",
    failed := fun ev => ev != 0, std_ := { addr := 0x602080, name := "std:unknown" } }

/-- Modelled from the spec: `detail::failed_impl( ev, cat )` (not among the sources): the
failure classification of the category, invoked once by the constructor. -/
def detail.failed_impl (ev : Int) (cat : error_category) : Bool := cat.failed ev

/-! ## The foreign representation -/

/-- Modelled from the spec: `std::error_code`, the foreign representation: a value together
with a (standard) category, exposing `value()` and `category()`. -/
structure std_error_code where
  val_ : Int
  cat_ : std_error_category
deriving DecidableEq, Repr

/-- The accessor `std::error_code::value()`. -/
def std_error_code.value (e : std_error_code) : Int := e.val_

/-- The accessor `std::error_code::category()`. -/
def std_error_code.category (e : std_error_code) : std_error_category := e.cat_

/-- The constructor `std::error_code( val, cat )` applied to a category of this library: the
category is converted to its standard counterpart, the value is taken as it is. -/
def std_error_code.ctor (val : Int) (cat : error_category) : std_error_code :=
  { val_ := val, cat_ := cat.std_ }

/-! ## class error_code -/

/-- The member `struct data` of `error_code`: `int val_; const error_category * cat_;`
(`none` is the null pointer). -/
structure error_code.data where
  val_ : Int
  cat_ : Option error_category

/-- The anonymous union `{ data d1_; unsigned char d2_[ sizeof(std_error_code) ]; }`: either
the native pair is live, or a `std::error_code` has been constructed in the bytes `d2_`. -/
inductive error_code.storage where
  | d1_ (d : error_code.data)
  | d2_ (e : std_error_code)

/-- The class `error_code`: the union and the tag `flags_`
(0: default constructed, 1: holds a `std::error_code` in `d2_`,
2: holds an error code in `d1_`, failed == false, 3: the same, failed == true). -/
structure error_code where
  u : error_code.storage
  flags_ : Nat

namespace error_code

/-- The value-initialised `d1_()`. -/
def data.zero : data := { val_ := 0, cat_ := none }

/-- Reading the member `d1_`. Reading it while a `std::error_code` is live in `d2_` is
undefined in C++; the embedding yields the value-initialised pair there. No operation of the
class reaches that case. -/
def d1_ (ec : error_code) : data :=
  match ec.u with
  | .d1_ d => d
  | .d2_ _ => data.zero

/-- Reading `reinterpret_cast<std::error_code const&>( d2_ )`. Doing so while `d1_` is the
live member is undefined in C++; the embedding yields a zero value with a null category
there. No operation of the class reaches that case. -/
def d2_ (ec : error_code) : std_error_code :=
  match ec.u with
  | .d2_ e => e
  | .d1_ _ => { val_ := 0, cat_ := { addr := 0, name := "" } }

/-- Dereferencing `*d1_.cat_`. Dereferencing the null pointer is undefined in C++; the
embedding yields a nameless category at address 0 there. No operation of the class reaches
that case. -/
def deref (p : Option error_category) : error_category :=
  match p with
  | some c => c
  | none => { id_ := 0, addr := 0, name := "", failed := fun _ => false,
              std_ := { addr := 0, name := "" } }

/-- The default constructor `error_code()`: `d1_(), flags_( 0 )`. -/
def ctor_default : error_code := { u := .d1_ data.zero, flags_ := 0 }

/-- The constructor `error_code( int val, const error_category & cat )`:
`d1_(), flags_( 2 + detail::failed_impl( val, cat ) )`, then `d1_.val_ = val; d1_.cat_ = &cat;`. -/
def ctor (val : Int) (cat : error_category) : error_code :=
  { u := .d1_ { val_ := val, cat_ := some cat },
    flags_ := 2 + (if detail.failed_impl val cat then 1 else 0) }

/-- The constructor `error_code( std::error_code const& ec )`:
`flags_( 1 )`, then `::new( d2_ ) std::error_code( ec )`. -/
def ctor_std (ec : std_error_code) : error_code := { u := .d2_ ec, flags_ := 1 }

/-- The observer `value()`. In the foreign state the `int` value and the `unsigned` hash of
the category address are added as `unsigned` and returned as `int`. -/
def value (ec : error_code) : Int :=
  if ec.flags_ ≠ 1 then
    ec.d1_.val_
  else
    let e := ec.d2_
    to_int (to_unsigned e.value + (e.category.addr % 1073741789) % 4294967296)

/-- The observer `category()`. -/
def category (ec : error_code) : error_category :=
  if ec.flags_ = 0 then
    system_category
  else if ec.flags_ = 1 then
    detail.interop_category
  else
    deref ec.d1_.cat_

/-- The observer `failed()`. -/
def failed (ec : error_code) : Bool :=
  if ec.flags_ = 0 then
    false
  else if ec.flags_ = 1 then
    let e := ec.d2_
    e.value != 0
  else
    (ec.flags_ &&& 1) != 0

/-- The relational `operator==( lhs, rhs )`. -/
def op_eq (lhs rhs : error_code) : Bool :=
  lhs.value == rhs.value && lhs.category.op_eq rhs.category

/-- The relational `operator<( lhs, rhs )`. -/
def op_lt (lhs rhs : error_code) : Bool :=
  lhs.category.op_lt rhs.category ||
    (lhs.category.op_eq rhs.category && decide (lhs.value < rhs.value))

/-- The relational `operator!=( lhs, rhs )`. -/
def op_ne (lhs rhs : error_code) : Bool := !(op_eq lhs rhs)

/-- The const conversion `operator std::error_code () const`. -/
def to_std (ec : error_code) : std_error_code :=
  if ec.flags_ = 1 then
    ec.d2_
  else if ec.flags_ = 0 then
    std_error_code.ctor 0 system_category
  else
    std_error_code.ctor ec.d1_.val_ (deref ec.d1_.cat_)

/-- The modifier `assign( val, cat )`: `*this = error_code( val, cat )`. -/
def assign (_ec : error_code) (val : Int) (cat : error_category) : error_code := ctor val cat

/-- The modifier `clear()`: `*this = error_code()`. -/
def clear (_ec : error_code) : error_code := ctor_default

/-- The non-const conversion `operator T& ()` for `T = std::error_code`: unless the tag is
already 1, the const conversion of `*this` is constructed in `d2_` and the tag is set to 1;
the result is the `std::error_code` then found in `d2_`, together with the code as it is left
behind. -/
def to_std_ref (ec : error_code) : std_error_code × error_code :=
  let ec :=
    if ec.flags_ ≠ 1 then
      let e2 := ec.to_std
      { u := .d2_ e2, flags_ := 1 }
    else
      ec
  (ec.d2_, ec)

/-- The stream output `os << ec`, with the stream the text written so far. -/
def op_shl (os : String) (ec : error_code) : String :=
  if ec.flags_ = 1 then
    let e2 := ec.d2_
    os ++ "std:" ++ e2.category.name ++ ":" ++ toString e2.value
  else
    os ++ ec.category.name ++ ":" ++ toString ec.value

end error_code

/-- The function `hash_value( ec )`, with `boost::ulong_long_type` and `std::size_t` 64 bits
wide: two rounds of xor-then-multiply, on the category identity and on the value. -/
def hash_value (ec : error_code) : Nat :=
  let cat := ec.category
  let id_ := if cat.id_ = 0 then cat.addr else cat.id_
  let hv := (0xCBF29CE4 <<< 32) + 0x84222325
  let prime := (0x00000100 <<< 32) + 0x000001B3
  let hv := ((hv ^^^ id_) * prime) % 18446744073709551616
  let hv := ((hv ^^^ to_unsigned ec.value) * prime) % 18446744073709551616
  hv

/-! ## Conditions -/

/-- Modelled from the spec: the portable Condition Registry `errc::errc_t`
(boost/system/errc.hpp is not among the sources), restricted to the conditions the Win32
table names. -/
inductive errc.errc_t where
  | success
  | permission_denied
  | file_exists
  | no_such_device
  | filename_too_long
  | device_or_resource_busy
  | io_error
  | directory_not_empty
  | invalid_argument
  | no_space_on_device
  | no_such_file_or_directory
  | function_not_supported
  | no_lock_available
  | not_enough_memory
  | resource_unavailable_try_again
  | cross_device_link
  | operation_canceled
  | too_many_files_open
  | address_in_use
  | address_not_available
  | address_family_not_supported
  | connection_already_in_progress
  | bad_file_descriptor
  | connection_aborted
  | connection_refused
  | connection_reset
  | destination_address_required
  | bad_address
  | host_unreachable
  | operation_in_progress
  | interrupted
  | already_connected
  | message_size
  | network_down
  | network_reset
  | network_unreachable
  | no_buffer_space
  | no_protocol_option
  | not_connected
  | not_a_socket
  | operation_not_supported
  | protocol_not_supported
  | wrong_protocol_type
  | timed_out
  | operation_would_block
deriving DecidableEq, Repr

open errc.errc_t in
/-- Modelled from the spec: the small integer of each registry condition: `success` is 0 and
every other condition is the `errno` constant of its name (values of the Microsoft C runtime,
the platform of the Win32 table). -/
def errc.errc_t.to_int : errc.errc_t → Int
  | success => 0
  | permission_denied => 13
  | file_exists => 17
  | no_such_device => 19
  | filename_too_long => 38
  | device_or_resource_busy => 16
  | io_error => 5
  | directory_not_empty => 41
  | invalid_argument => 22
  | no_space_on_device => 28
  | no_such_file_or_directory => 2
  | function_not_supported => 40
  | no_lock_available => 39
  | not_enough_memory => 12
  | resource_unavailable_try_again => 11
  | cross_device_link => 18
  | operation_canceled => 105
  | too_many_files_open => 24
  | address_in_use => 100
  | address_not_available => 101
  | address_family_not_supported => 102
  | connection_already_in_progress => 103
  | bad_file_descriptor => 9
  | connection_aborted => 106
  | connection_refused => 107
  | connection_reset => 108
  | destination_address_required => 109
  | bad_address => 14
  | host_unreachable => 110
  | operation_in_progress => 112
  | interrupted => 4
  | already_connected => 113
  | message_size => 115
  | network_down => 116
  | network_reset => 117
  | network_unreachable => 118
  | no_buffer_space => 119
  | no_protocol_option => 123
  | not_connected => 126
  | not_a_socket => 128
  | operation_not_supported => 130
  | protocol_not_supported => 135
  | wrong_protocol_type => 136
  | timed_out => 138
  | operation_would_block => 140

/-- Modelled from the spec: `error_condition` (boost/system/detail/error_condition.hpp is not
among the sources): the value pair (small integer, category). -/
structure error_condition where
  val_ : Int
  cat_ : error_category

/-- The constructor `error_condition( val, cat )`. -/
def error_condition.ctor (val : Int) (cat : error_category) : error_condition :=
  { val_ := val, cat_ := cat }

/-- Modelled from the spec: `make_error_condition( e )` for a registry condition: the
condition `e` under the generic category. -/
def errc.make_error_condition (e : errc.errc_t) : error_condition :=
  error_condition.ctor e.to_int generic_category

/-! ## Native constants

The constants of `boost/winapi/error_codes.hpp` (Boost.WinAPI) that the table names, with the
values the Windows SDK publishes for them in WinError.h and WinSock2.h. -/

namespace winapi

def ERROR_ACCESS_DENIED_ : Int := 5
def ERROR_ALREADY_EXISTS_ : Int := 183
def ERROR_BAD_UNIT_ : Int := 20
def ERROR_BUFFER_OVERFLOW_ : Int := 111
def ERROR_BUSY_ : Int := 170
def ERROR_BUSY_DRIVE_ : Int := 142
def ERROR_CANNOT_MAKE_ : Int := 82
def ERROR_CANTOPEN_ : Int := 1011
def ERROR_CANTREAD_ : Int := 1012
def ERROR_CANTWRITE_ : Int := 1013
def ERROR_CURRENT_DIRECTORY_ : Int := 16
def ERROR_DEV_NOT_EXIST_ : Int := 55
def ERROR_DEVICE_IN_USE_ : Int := 2404
def ERROR_DIR_NOT_EMPTY_ : Int := 145
def ERROR_DIRECTORY_ : Int := 267
def ERROR_DISK_FULL_ : Int := 112
def ERROR_FILE_EXISTS_ : Int := 80
def ERROR_FILE_NOT_FOUND_ : Int := 2
def ERROR_HANDLE_DISK_FULL_ : Int := 39
def ERROR_INVALID_ACCESS_ : Int := 12
def ERROR_INVALID_DRIVE_ : Int := 15
def ERROR_INVALID_FUNCTION_ : Int := 1
def ERROR_INVALID_HANDLE_ : Int := 6
def ERROR_INVALID_NAME_ : Int := 123
def ERROR_LOCK_VIOLATION_ : Int := 33
def ERROR_LOCKED_ : Int := 212
def ERROR_NEGATIVE_SEEK_ : Int := 131
def ERROR_NOACCESS_ : Int := 998
def ERROR_NOT_ENOUGH_MEMORY_ : Int := 8
def ERROR_NOT_READY_ : Int := 21
def ERROR_NOT_SAME_DEVICE_ : Int := 17
def ERROR_OPEN_FAILED_ : Int := 110
def ERROR_OPEN_FILES_ : Int := 2401
def ERROR_OPERATION_ABORTED_ : Int := 995
def ERROR_OUTOFMEMORY_ : Int := 14
def ERROR_PATH_NOT_FOUND_ : Int := 3
def ERROR_READ_FAULT_ : Int := 30
def ERROR_RETRY_ : Int := 1237
def ERROR_SEEK_ : Int := 25
def ERROR_SHARING_VIOLATION_ : Int := 32
def ERROR_TOO_MANY_OPEN_FILES_ : Int := 4
def ERROR_WRITE_FAULT_ : Int := 29
def ERROR_WRITE_PROTECT_ : Int := 19
def WSAEACCES_ : Int := 10013
def WSAEADDRINUSE_ : Int := 10048
def WSAEADDRNOTAVAIL_ : Int := 10049
def WSAEAFNOSUPPORT_ : Int := 10047
def WSAEALREADY_ : Int := 10037
def WSAEBADF_ : Int := 10009
def WSAECONNABORTED_ : Int := 10053
def WSAECONNREFUSED_ : Int := 10061
def WSAECONNRESET_ : Int := 10054
def WSAEDESTADDRREQ_ : Int := 10039
def WSAEFAULT_ : Int := 10014
def WSAEHOSTUNREACH_ : Int := 10065
def WSAEINPROGRESS_ : Int := 10036
def WSAEINTR_ : Int := 10004
def WSAEINVAL_ : Int := 10022
def WSAEISCONN_ : Int := 10056
def WSAEMFILE_ : Int := 10024
def WSAEMSGSIZE_ : Int := 10040
def WSAENAMETOOLONG_ : Int := 10063
def WSAENETDOWN_ : Int := 10050
def WSAENETRESET_ : Int := 10052
def WSAENETUNREACH_ : Int := 10051
def WSAENOBUFS_ : Int := 10055
def WSAENOPROTOOPT_ : Int := 10042
def WSAENOTCONN_ : Int := 10057
def WSAENOTSOCK_ : Int := 10038
def WSAEOPNOTSUPP_ : Int := 10045
def WSAEPROTONOSUPPORT_ : Int := 10043
def WSAEPROTOTYPE_ : Int := 10041
def WSAETIMEDOUT_ : Int := 10060
def WSAEWOULDBLOCK_ : Int := 10035

end winapi

/-! ## system_category_win32.hpp -/

namespace detail

/-- The macro `BOOST_SYSTEM_FAILED(hr)`: `((hr) < 0)`. -/
def BOOST_SYSTEM_FAILED (hr : Int) : Bool := decide (hr < 0)

/-- The macro `BOOST_SYSTEM_HRESULT_FACILITY(hr)`: `(((hr) >> 16) & 0x1fff)`, with the
arithmetic right shift of a signed `int`. -/
def BOOST_SYSTEM_HRESULT_FACILITY (hr : Int) : Int := Int.land (Int.shiftRight hr 16) 0x1fff

/-- The macro `BOOST_SYSTEM_HRESULT_CODE(hr)`: `((hr) & 0xFFFF)`. -/
def BOOST_SYSTEM_HRESULT_CODE (hr : Int) : Int := Int.land hr 0xFFFF

/-- The macro `BOOST_SYSTEM_FACILITY_WIN32`. -/
def BOOST_SYSTEM_FACILITY_WIN32 : Int := 7

/-- The first statement of `system_category_default_error_condition_win32`: the value of
`ev` after
`if( BOOST_SYSTEM_FAILED( ev ) && BOOST_SYSTEM_HRESULT_FACILITY( ev ) == BOOST_SYSTEM_FACILITY_WIN32 )`
`ev = BOOST_SYSTEM_HRESULT_CODE( ev );`. -/
def win32_unpack (ev : Int) : Int :=
  if BOOST_SYSTEM_FAILED ev && BOOST_SYSTEM_HRESULT_FACILITY ev == BOOST_SYSTEM_FACILITY_WIN32 then
    BOOST_SYSTEM_HRESULT_CODE ev
  else
    ev

open winapi errc.errc_t in
/-- The case labels of the `switch ( ev )` of
`system_category_default_error_condition_win32`, in source order, each with the condition
its case returns. -/
def win32_cases : List (Int × errc.errc_t) :=
  [ (0, success),
    (ERROR_ACCESS_DENIED_, permission_denied),
    (ERROR_ALREADY_EXISTS_, file_exists),
    (ERROR_BAD_UNIT_, no_such_device),
    (ERROR_BUFFER_OVERFLOW_, filename_too_long),
    (ERROR_BUSY_, device_or_resource_busy),
    (ERROR_BUSY_DRIVE_, device_or_resource_busy),
    (ERROR_CANNOT_MAKE_, permission_denied),
    (ERROR_CANTOPEN_, io_error),
    (ERROR_CANTREAD_, io_error),
    (ERROR_CANTWRITE_, io_error),
    (ERROR_CURRENT_DIRECTORY_, permission_denied),
    (ERROR_DEV_NOT_EXIST_, no_such_device),
    (ERROR_DEVICE_IN_USE_, device_or_resource_busy),
    (ERROR_DIR_NOT_EMPTY_, directory_not_empty),
    (ERROR_DIRECTORY_, invalid_argument),
    (ERROR_DISK_FULL_, no_space_on_device),
    (ERROR_FILE_EXISTS_, file_exists),
    (ERROR_FILE_NOT_FOUND_, no_such_file_or_directory),
    (ERROR_HANDLE_DISK_FULL_, no_space_on_device),
    (ERROR_INVALID_ACCESS_, permission_denied),
    (ERROR_INVALID_DRIVE_, no_such_device),
    (ERROR_INVALID_FUNCTION_, function_not_supported),
    (ERROR_INVALID_HANDLE_, invalid_argument),
    (ERROR_INVALID_NAME_, invalid_argument),
    (ERROR_LOCK_VIOLATION_, no_lock_available),
    (ERROR_LOCKED_, no_lock_available),
    (ERROR_NEGATIVE_SEEK_, invalid_argument),
    (ERROR_NOACCESS_, permission_denied),
    (ERROR_NOT_ENOUGH_MEMORY_, not_enough_memory),
    (ERROR_NOT_READY_, resource_unavailable_try_again),
    (ERROR_NOT_SAME_DEVICE_, cross_device_link),
    (ERROR_OPEN_FAILED_, io_error),
    (ERROR_OPEN_FILES_, device_or_resource_busy),
    (ERROR_OPERATION_ABORTED_, operation_canceled),
    (ERROR_OUTOFMEMORY_, not_enough_memory),
    (ERROR_PATH_NOT_FOUND_, no_such_file_or_directory),
    (ERROR_READ_FAULT_, io_error),
    (ERROR_RETRY_, resource_unavailable_try_again),
    (ERROR_SEEK_, io_error),
    (ERROR_SHARING_VIOLATION_, permission_denied),
    (ERROR_TOO_MANY_OPEN_FILES_, too_many_files_open),
    (ERROR_WRITE_FAULT_, io_error),
    (ERROR_WRITE_PROTECT_, permission_denied),
    (WSAEACCES_, permission_denied),
    (WSAEADDRINUSE_, address_in_use),
    (WSAEADDRNOTAVAIL_, address_not_available),
    (WSAEAFNOSUPPORT_, address_family_not_supported),
    (WSAEALREADY_, connection_already_in_progress),
    (WSAEBADF_, bad_file_descriptor),
    (WSAECONNABORTED_, connection_aborted),
    (WSAECONNREFUSED_, connection_refused),
    (WSAECONNRESET_, connection_reset),
    (WSAEDESTADDRREQ_, destination_address_required),
    (WSAEFAULT_, bad_address),
    (WSAEHOSTUNREACH_, host_unreachable),
    (WSAEINPROGRESS_, operation_in_progress),
    (WSAEINTR_, interrupted),
    (WSAEINVAL_, invalid_argument),
    (WSAEISCONN_, already_connected),
    (WSAEMFILE_, too_many_files_open),
    (WSAEMSGSIZE_, message_size),
    (WSAENAMETOOLONG_, filename_too_long),
    (WSAENETDOWN_, network_down),
    (WSAENETRESET_, network_reset),
    (WSAENETUNREACH_, network_unreachable),
    (WSAENOBUFS_, no_buffer_space),
    (WSAENOPROTOOPT_, no_protocol_option),
    (WSAENOTCONN_, not_connected),
    (WSAENOTSOCK_, not_a_socket),
    (WSAEOPNOTSUPP_, operation_not_supported),
    (WSAEPROTONOSUPPORT_, protocol_not_supported),
    (WSAEPROTOTYPE_, wrong_protocol_type),
    (WSAETIMEDOUT_, timed_out),
    (WSAEWOULDBLOCK_, operation_would_block) ]

/-- The function `system_category_default_error_condition_win32( ev )`: the unpacking of a
failing FACILITY_WIN32 value, then the `switch`, whose `default:` returns
`error_condition( ev, system_category() )`. -/
def system_category_default_error_condition_win32 (ev : Int) : error_condition :=
  let ev := win32_unpack ev
  match win32_cases.lookup ev with
  | some e => errc.make_error_condition e
  | none => error_condition.ctor ev system_category

/-- The loop
`while( !str.empty() && ( str[ str.size() - 1 ] == '\n' || str[ str.size() - 1 ] == '\r' ) )`
`str.erase( str.size() - 1 );` of `system_category_message_win32`. A `std::string` is the
list of its characters. -/
def strip_line_ends (str : List Char) : List Char :=
  if str ≠ [] ∧ (str[str.length - 1]? = some '\n' ∨ str[str.length - 1]? = some '\r') then
    strip_line_ends (str.take (str.length - 1))
  else
    str
termination_by str.length
decreasing_by
  simp only [List.length_take]
  have : 0 < str.length := List.length_pos.mpr (by tauto)
  omega

/-- The statement `if( str.size() && str[ str.size() - 1 ] == '.' ) str.erase( str.size() - 1 );`. -/
def strip_period (str : List Char) : List Char :=
  if str.length ≠ 0 ∧ str[str.length - 1]? = some '.' then
    str.take (str.length - 1)
  else
    str

/-- The normalization at the end of `system_category_message_win32`: the statements after
`std::string str( narrow_buffer );`. -/
def normalize_message (str : List Char) : List Char :=
  strip_period (strip_line_ends str)

/-- The function `system_category_message_win32( ev )`. The two calls into the operating
system (the `FormatMessageW` retry loop and `WideCharToMultiByte`) are the argument
`narrow_buffer`: `none` when either of them fails, otherwise the narrow text of the message
for `ev` (the characters before the terminating NUL, which is what
`std::string str( narrow_buffer )` copies). -/
def system_category_message_win32 (narrow_buffer : Option (List Char)) : List Char :=
  match narrow_buffer with
  | none => "Unknown error".toList
  | some str => normalize_message str

end detail

/-! ## Sequences of operations on one `error_code` object -/

namespace error_code

/-- The three ways an `error_code` object comes into being: `error_code()`,
`error_code( val, cat )` and `error_code( std::error_code const& )`. -/
inductive construction where
  | default
  | native (val : Int) (cat : error_category)
  | foreign (e : std_error_code)

/-- The object a construction produces. -/
def construction.result : construction → error_code
  | .default => ctor_default
  | .native val cat => ctor val cat
  | .foreign e => ctor_std e

/-- The operations that change an existing object: `assign( val, cat )`, `clear()` and the
non-const conversion `operator T& ()`. -/
inductive operation where
  | assign (val : Int) (cat : error_category)
  | clear
  | convert

/-- The object after one operation. -/
def operation.apply (o : operation) (ec : error_code) : error_code :=
  match o with
  | .assign val cat => ec.assign val cat
  | .clear => ec.clear
  | .convert => ec.to_std_ref.2

/-- The object after a construction followed by a sequence of operations, first to last. -/
def run (c : construction) (ops : List operation) : error_code :=
  ops.foldl (fun ec o => o.apply ec) c.result

/-- The storage holds a constructed `std::error_code`. -/
def storage.holds_foreign : storage → Bool
  | .d2_ _ => true
  | .d1_ _ => false

/-- The storage holds the native pair `d1_`. -/
def storage.holds_native : storage → Bool
  | .d1_ _ => true
  | .d2_ _ => false

/-- The state invariant that the comment at `flags_` documents: the tag is one of 0, 1, 2, 3;
it is 1 exactly when the storage holds a constructed `std::error_code` (otherwise the
storage holds the native pair); with tag 0 the stored value is 0; and with tag 2 or 3 the
stored category pointer is not null. -/
def invariant (ec : error_code) : Prop :=
  (ec.flags_ = 0 ∨ ec.flags_ = 1 ∨ ec.flags_ = 2 ∨ ec.flags_ = 3) ∧
  (ec.flags_ = 1 ↔ ec.u.holds_foreign = true) ∧
  (ec.flags_ ≠ 1 ↔ ec.u.holds_native = true) ∧
  (ec.flags_ = 0 → ec.d1_.val_ = 0) ∧
  (ec.flags_ = 2 ∨ ec.flags_ = 3 → ec.d1_.cat_.isSome = true)

end error_code

/-- Modelled from the spec: `operator==` of two conditions (error_condition.hpp is not among
the sources): same value and same category, by category identity. -/
def error_condition.op_eq (lhs rhs : error_condition) : Bool :=
  lhs.val_ == rhs.val_ && lhs.cat_.op_eq rhs.cat_

/-- The wording of the claim on `value()`: an integer taken modulo `2^32` and reinterpreted
as a signed 32-bit integer. Used only to state the comparison with `error_code.value`. -/
def spec_signed32 (x : Int) : Int :=
  if x % 4294967296 < 2147483648 then x % 4294967296 else x % 4294967296 - 4294967296

/-! ## Lemmas on the embedding -/

theorem error_category.op_eq_refl (c : error_category) : c.op_eq c = true := by
  unfold error_category.op_eq
  split <;> simp [*]

theorem error_category.op_eq_iff (a b : error_category) :
    a.op_eq b = true ↔ a.id_ = b.id_ ∧ (a.id_ = 0 → a.addr = b.addr) := by
  unfold error_category.op_eq
  by_cases hb : b.id_ = 0
  · simp only [hb, if_true, Bool.and_eq_true, beq_iff_eq]
    omega
  · simp only [hb, if_false, beq_iff_eq]
    omega

theorem error_category.op_lt_iff (a b : error_category) :
    a.op_lt b = true ↔ a.id_ < b.id_ ∨ (a.id_ = b.id_ ∧ a.id_ = 0 ∧ a.addr < b.addr) := by
  unfold error_category.op_lt
  split_ifs with h1 h2 h3
  · simp only [true_iff]; omega
  · simp only [Bool.false_eq_true, false_iff]; omega
  · simp only [Bool.false_eq_true, false_iff]; omega
  · simp only [decide_eq_true_eq]; omega

theorem error_category.trichotomy (a b : error_category) :
    (a.op_lt b = true ∧ b.op_lt a = false ∧ a.op_eq b = false) ∨
    (a.op_lt b = false ∧ b.op_lt a = true ∧ a.op_eq b = false) ∨
    (a.op_lt b = false ∧ b.op_lt a = false ∧ a.op_eq b = true) := by
  simp only [Bool.eq_false_iff, ne_eq, error_category.op_lt_iff, error_category.op_eq_iff]
  omega

theorem error_category.op_lt_trans (a b c : error_category)
    (hab : a.op_lt b = true) (hbc : b.op_lt c = true) : a.op_lt c = true := by
  rw [error_category.op_lt_iff] at *
  omega

theorem error_category.op_lt_of_eq_left (a b c : error_category)
    (hab : a.op_eq b = true) (hbc : b.op_lt c = true) : a.op_lt c = true := by
  rw [error_category.op_eq_iff] at hab
  rw [error_category.op_lt_iff] at *
  omega

theorem error_category.op_lt_of_eq_right (a b c : error_category)
    (hab : a.op_lt b = true) (hbc : b.op_eq c = true) : a.op_lt c = true := by
  rw [error_category.op_eq_iff] at hbc
  rw [error_category.op_lt_iff] at *
  omega

theorem error_category.op_eq_trans (a b c : error_category)
    (hab : a.op_eq b = true) (hbc : b.op_eq c = true) : a.op_eq c = true := by
  rw [error_category.op_eq_iff] at *
  omega

theorem error_code.ctor_flags (v : Int) (cat : error_category) :
    (error_code.ctor v cat).flags_ = 2 ∨ (error_code.ctor v cat).flags_ = 3 := by
  unfold error_code.ctor
  cases detail.failed_impl v cat <;> simp

theorem error_code.value_ctor (v : Int) (cat : error_category) :
    (error_code.ctor v cat).value = v := by
  rcases error_code.ctor_flags v cat with h | h <;>
    simp [error_code.value, h] <;> rfl

theorem error_code.category_ctor (v : Int) (cat : error_category) :
    (error_code.ctor v cat).category = cat := by
  rcases error_code.ctor_flags v cat with h | h <;>
    simp [error_code.category, h] <;> rfl

theorem error_code.to_std_ctor (v : Int) (cat : error_category) :
    (error_code.ctor v cat).to_std = std_error_code.ctor v cat := by
  rcases error_code.ctor_flags v cat with h | h <;>
    simp [error_code.to_std, h] <;> rfl

theorem ldiff_low_mask (k n : Nat) : Nat.ldiff (2 ^ k - 1) n = 2 ^ k - (n % 2 ^ k + 1) := by
  apply Nat.eq_of_testBit_eq
  intro i
  rw [Nat.testBit_ldiff, Nat.testBit_two_pow_sub_one,
    Nat.testBit_two_pow_sub_succ (Nat.mod_lt _ (Nat.two_pow_pos k)), Nat.testBit_mod_two_pow]
  cases decide (i < k) <;> simp

/-- The bitwise AND of a two's complement integer with the mask `2^k - 1` is its remainder
modulo `2^k`. -/
theorem land_low_mask (k : Nat) (x : Int) :
    Int.land x ((2 ^ k - 1 : Nat) : Int) = x % ((2 ^ k : Nat) : Int) := by
  cases x with
  | ofNat n =>
    show Int.land (Int.ofNat n) (Int.ofNat (2 ^ k - 1)) = _
    simp only [Int.land]
    rw [Nat.and_pow_two_sub_one_eq_mod]
    simp
  | negSucc n =>
    show Int.land (Int.negSucc n) (Int.ofNat (2 ^ k - 1)) = _
    simp only [Int.land]
    rw [ldiff_low_mask, Int.negSucc_emod _ (by positivity)]
    have h := Nat.mod_lt n (Nat.two_pow_pos k)
    rw [Nat.cast_sub (by omega)]
    push_cast
    omega

theorem detail.hresult_code_eq (hr : Int) : detail.BOOST_SYSTEM_HRESULT_CODE hr = hr % 65536 :=
  land_low_mask 16 hr

theorem detail.hresult_facility_eq (hr : Int) :
    detail.BOOST_SYSTEM_HRESULT_FACILITY hr = (hr / 65536) % 8192 := by
  unfold detail.BOOST_SYSTEM_HRESULT_FACILITY
  have h : Int.shiftRight hr 16 = hr / 65536 := by
    show hr >>> (16 : Nat) = _
    rw [Int.shiftRight_eq_div_pow]
    rfl
  rw [h]
  exact land_low_mask 13 (hr / 65536)

theorem detail.win32_unpack_eq (ev : Int) :
    detail.win32_unpack ev = if ev < 0 ∧ (ev / 65536) % 8192 = 7 then ev % 65536 else ev := by
  unfold detail.win32_unpack
  simp only [detail.BOOST_SYSTEM_FAILED, detail.BOOST_SYSTEM_FACILITY_WIN32,
    detail.hresult_code_eq, detail.hresult_facility_eq, Bool.and_eq_true, decide_eq_true_eq,
    beq_iff_eq]

theorem detail.win32_condition_eq (ev : Int) :
    detail.system_category_default_error_condition_win32 ev
      = match detail.win32_cases.lookup (detail.win32_unpack ev) with
        | some e => errc.make_error_condition e
        | none => error_condition.ctor (detail.win32_unpack ev) system_category := rfl

theorem detail.win32_unpack_code (ev : Int) :
    detail.win32_unpack (detail.BOOST_SYSTEM_HRESULT_CODE ev)
      = detail.BOOST_SYSTEM_HRESULT_CODE ev := by
  rw [detail.win32_unpack_eq, detail.hresult_code_eq]
  have h : ¬ (ev % 65536 < 0) := by omega
  simp [h]

theorem detail.getElem?_last_append (l : List Char) (c : Char) :
    (l ++ [c])[(l ++ [c]).length - 1]? = some c := by
  simp

theorem detail.take_pred_append (l : List Char) (c : Char) :
    (l ++ [c]).take ((l ++ [c]).length - 1) = l := by
  simp

theorem detail.strip_line_ends_append (l : List Char) (c : Char) :
    detail.strip_line_ends (l ++ [c])
      = if c = '\n' ∨ c = '\r' then detail.strip_line_ends l else l ++ [c] := by
  rw [detail.strip_line_ends]
  simp only [detail.getElem?_last_append, detail.take_pred_append, Option.some.injEq]
  have h : l ++ [c] ≠ [] := by simp
  simp [h]

theorem detail.strip_period_append (l : List Char) (c : Char) :
    detail.strip_period (l ++ [c]) = if c = '.' then l else l ++ [c] := by
  unfold detail.strip_period
  simp only [detail.getElem?_last_append, detail.take_pred_append, Option.some.injEq]
  simp

theorem error_code.failed_ctor (v : Int) (cat : error_category) :
    (error_code.ctor v cat).failed = detail.failed_impl v cat := by
  unfold error_code.ctor error_code.failed
  cases detail.failed_impl v cat <;> simp

theorem to_int_unsigned_add (v : Int) (m : Nat) :
    to_int (to_unsigned v + m) = spec_signed32 (v + (m : Int)) := by
  unfold to_int to_unsigned spec_signed32
  have h : (((v % 4294967296).toNat + m) % 4294967296 : Nat)
      = ((v + (m : Int)) % 4294967296).toNat := by omega
  have h2 : (((v + (m : Int)) % 4294967296).toNat : Int) = (v + (m : Int)) % 4294967296 :=
    Int.toNat_of_nonneg (Int.emod_nonneg _ (by decide))
  rw [h]
  split_ifs <;> omega

theorem error_code.to_std_ref_of_foreign (c : error_code) (h : c.flags_ = 1) :
    c.to_std_ref = (c.d2_, c) := by
  simp [error_code.to_std_ref, h]

theorem error_code.to_std_ref_of_not_foreign (c : error_code) (h : c.flags_ ≠ 1) :
    c.to_std_ref = (c.to_std, error_code.ctor_std c.to_std) := by
  simp [error_code.to_std_ref, h, error_code.ctor_std, error_code.d2_]

theorem error_code.to_std_of_foreign (c : error_code) (h : c.flags_ = 1) :
    c.to_std = c.d2_ := by
  simp [error_code.to_std, h]

theorem error_code.to_std_ref_flags (c : error_code) : c.to_std_ref.2.flags_ = 1 := by
  by_cases h : c.flags_ = 1
  · rw [error_code.to_std_ref_of_foreign c h]; exact h
  · rw [error_code.to_std_ref_of_not_foreign c h]; rfl

theorem error_code.to_std_ref_snd_fixed (c : error_code) :
    c.to_std_ref.2.to_std_ref.2 = c.to_std_ref.2 := by
  rw [error_code.to_std_ref_of_foreign _ (error_code.to_std_ref_flags c)]

theorem hash_value_congr (a b : error_code) (hv : a.value = b.value)
    (hc : a.category.op_eq b.category = true) : hash_value a = hash_value b := by
  rw [error_category.op_eq_iff] at hc
  obtain ⟨hid, haddr⟩ := hc
  unfold hash_value
  simp only [hv, ← hid]
  by_cases h0 : a.category.id_ = 0
  · simp only [h0, if_true, haddr h0]
  · simp only [h0, if_false]

theorem error_code.invariant_ctor_default : error_code.ctor_default.invariant := by
  refine ⟨Or.inl rfl, ?_, ?_, ?_, ?_⟩ <;> decide

theorem error_code.invariant_ctor (v : Int) (cat : error_category) :
    (error_code.ctor v cat).invariant := by
  unfold error_code.invariant error_code.ctor
  cases detail.failed_impl v cat <;>
    simp [error_code.storage.holds_foreign, error_code.storage.holds_native, error_code.d1_]

theorem error_code.invariant_ctor_std (e : std_error_code) :
    (error_code.ctor_std e).invariant := by
  unfold error_code.invariant error_code.ctor_std
  simp [error_code.storage.holds_foreign, error_code.storage.holds_native]

theorem error_code.invariant_to_std_ref (c : error_code) (h : c.invariant) :
    c.to_std_ref.2.invariant := by
  by_cases hf : c.flags_ = 1
  · rw [error_code.to_std_ref_of_foreign c hf]; exact h
  · rw [error_code.to_std_ref_of_not_foreign c hf]; exact error_code.invariant_ctor_std _

theorem error_code.invariant_apply (o : error_code.operation) (c : error_code)
    (h : c.invariant) : (o.apply c).invariant := by
  cases o with
  | assign val cat => exact error_code.invariant_ctor val cat
  | clear => exact error_code.invariant_ctor_default
  | convert => exact error_code.invariant_to_std_ref c h

theorem error_code.invariant_foldl (ops : List error_code.operation) (c : error_code)
    (h : c.invariant) : (ops.foldl (fun ec o => o.apply ec) c).invariant := by
  induction ops generalizing c with
  | nil => exact h
  | cons o rest ih => exact ih (o.apply c) (error_code.invariant_apply o c h)

theorem error_code.invariant_result (k : error_code.construction) : k.result.invariant := by
  cases k with
  | default => exact error_code.invariant_ctor_default
  | native val cat => exact error_code.invariant_ctor val cat
  | foreign e => exact error_code.invariant_ctor_std e

theorem list_lookup_mem {α β : Type} [BEq α] [LawfulBEq α] (k : α) (v : β) :
    ∀ l : List (α × β), l.lookup k = some v → (k, v) ∈ l := by
  intro l
  induction l with
  | nil => intro h; simp at h
  | cons p rest ih =>
    obtain ⟨a, b⟩ := p
    intro h
    by_cases hk : k == a
    · simp only [List.lookup, hk, Option.some.injEq] at h
      have hka : k = a := by simpa using hk
      subst hka
      subst h
      exact List.mem_cons_self _ _
    · have hk2 : (k == a) = false := by simpa using hk
      simp only [List.lookup, hk2] at h
      exact List.mem_cons_of_mem _ (ih h)

theorem detail.win32_cases_success :
    ∀ p ∈ detail.win32_cases, p.2 = errc.errc_t.success → p.1 = 0 := by
  decide

theorem errc.to_int_eq_zero (e : errc.errc_t) : e.to_int = 0 ↔ e = errc.errc_t.success := by
  cases e <;> simp [errc.errc_t.to_int]

theorem system_ne_generic : system_category ≠ generic_category := by
  intro h
  have h2 := congrArg error_category.id_ h
  revert h2
  decide

theorem detail.win32_unpack_eq_zero (ev : Int) :
    detail.win32_unpack ev = 0 ↔
      (ev = 0 ∨ (ev < 0 ∧
        detail.BOOST_SYSTEM_HRESULT_FACILITY ev = detail.BOOST_SYSTEM_FACILITY_WIN32 ∧
        detail.BOOST_SYSTEM_HRESULT_CODE ev = 0)) := by
  rw [detail.win32_unpack_eq, detail.hresult_facility_eq, detail.hresult_code_eq]
  unfold detail.BOOST_SYSTEM_FACILITY_WIN32
  split_ifs with h <;> omega

theorem error_code.value_ctor_std (v : Int) (c : std_error_category) :
    (error_code.ctor_std { val_ := v, cat_ := c }).value
      = spec_signed32 (v + ((c.addr % 1073741789 : Nat) : Int)) := by
  have h : c.addr % 1073741789 % 4294967296 = c.addr % 1073741789 :=
    Nat.mod_eq_of_lt (by omega)
  rw [← to_int_unsigned_add]
  simp [error_code.value, error_code.ctor_std, error_code.d2_, std_error_code.value,
    std_error_code.category, h]

theorem error_code.failed_ctor_std (e : std_error_code) :
    (error_code.ctor_std e).failed = (e.val_ != 0) := by
  simp [error_code.failed, error_code.ctor_std, error_code.d2_, std_error_code.value]

/-! ## Theorems -/

/-- C1, as stated, fails at the example the claim gives: `error_code( 5, system_category() )`
converted to `std::error_code` and back is a code in the foreign state, so its `category()`
is the interop category and not the system category (and its `value()` has the hash of the
foreign category address added to 5). -/
theorem roundtrip_native_foreign_not_preserved :
    (error_code.ctor_std (error_code.ctor 5 system_category).to_std).category
        = detail.interop_category ∧
    (error_code.ctor_std (error_code.ctor 5 system_category).to_std).category.op_eq
        system_category = false ∧
    ¬ ((error_code.ctor_std (error_code.ctor 5 system_category).to_std).value = 5 ∧
       (error_code.ctor_std (error_code.ctor 5 system_category).to_std).category.op_eq
        system_category = true) := by
  refine ⟨rfl, by decide, ?_⟩
  intro h
  exact absurd h.2 (by decide)

/-- C1, amended: for every `v` and `cat`, converting `error_code( v, cat )` to
`std::error_code` and constructing an `error_code` back from it yields a code in the foreign
state (tag 1) that holds exactly the foreign value `( v, cat )`: converting it again gives the
same `std::error_code`. Its `category()` is the interop category, and its `value()` is `v`
plus the category address modulo 1073741789, wrapped to `int`. -/
theorem roundtrip_native_foreign (v : Int) (cat : error_category) :
    (error_code.ctor_std (error_code.ctor v cat).to_std).flags_ = 1 ∧
    (error_code.ctor_std (error_code.ctor v cat).to_std).to_std
        = (error_code.ctor v cat).to_std ∧
    (error_code.ctor_std (error_code.ctor v cat).to_std).to_std = std_error_code.ctor v cat ∧
    (error_code.ctor_std (error_code.ctor v cat).to_std).category = detail.interop_category ∧
    (error_code.ctor_std (error_code.ctor v cat).to_std).value
        = to_int (to_unsigned v + cat.std_.addr % 1073741789) := by
  rw [error_code.to_std_ctor]
  refine ⟨rfl, rfl, rfl, rfl, ?_⟩
  have h : cat.std_.addr % 1073741789 % 4294967296 = cat.std_.addr % 1073741789 :=
    Nat.mod_eq_of_lt (by omega)
  simp [error_code.value, error_code.ctor_std, error_code.d2_, std_error_code.ctor,
    std_error_code.value, std_error_code.category, h]

/-- C2: `error_code( v, cat ) == error_code( v, cat )` for every `v` and `cat`; for two
categories of distinct identity `error_code( v, cat1 ) != error_code( v, cat2 )`; and in
every state `operator==` is equality of `value()` together with identity of `category()`,
`operator!=` its negation. -/
theorem op_eq_native (v : Int) (cat cat1 cat2 : error_category)
    (hne : cat1.op_eq cat2 = false) :
    (error_code.ctor v cat).op_eq (error_code.ctor v cat) = true ∧
    (error_code.ctor v cat1).op_ne (error_code.ctor v cat2) = true ∧
    (∀ a b : error_code,
      a.op_eq b = (a.value == b.value && a.category.op_eq b.category)) ∧
    (∀ a b : error_code, a.op_ne b = !(a.op_eq b)) := by
  refine ⟨?_, ?_, fun _ _ => rfl, fun _ _ => rfl⟩
  · simp [error_code.op_eq, error_category.op_eq_refl]
  · simp [error_code.op_ne, error_code.op_eq, error_code.category_ctor, hne]

/-- C2 at concrete categories: the system and the generic category have distinct identity,
so the codes `( 5, system )` and `( 5, generic )` compare unequal. -/
theorem op_eq_native_witness :
    system_category.op_eq generic_category = false ∧
    (error_code.ctor 5 system_category).op_eq (error_code.ctor 5 system_category) = true ∧
    (error_code.ctor 5 system_category).op_ne (error_code.ctor 5 generic_category) = true :=
  ⟨by decide,
   (op_eq_native 5 system_category system_category generic_category (by decide)).1,
   (op_eq_native 5 system_category system_category generic_category (by decide)).2.1⟩

/-- C3: for error codes `a`, `b`, `c` in any state exactly one of `a < b`, `b < a`, `a == b`
holds, `a < b` and `b < c` give `a < c`, and `operator<` compares `category()` first and
`value()` second. -/
theorem op_lt_strict_total_order (a b c : error_code) :
    ((a.op_lt b = true ∧ b.op_lt a = false ∧ a.op_eq b = false) ∨
     (a.op_lt b = false ∧ b.op_lt a = true ∧ a.op_eq b = false) ∨
     (a.op_lt b = false ∧ b.op_lt a = false ∧ a.op_eq b = true)) ∧
    (a.op_lt b = true → b.op_lt c = true → a.op_lt c = true) ∧
    a.op_lt b = (a.category.op_lt b.category ||
      (a.category.op_eq b.category && decide (a.value < b.value))) := by
  refine ⟨?_, ?_, rfl⟩
  · simp only [error_code.op_lt, error_code.op_eq, Bool.or_eq_true, Bool.and_eq_true,
      decide_eq_true_eq, beq_iff_eq, Bool.eq_false_iff, ne_eq, error_category.op_lt_iff,
      error_category.op_eq_iff]
    omega
  · simp only [error_code.op_lt, Bool.or_eq_true, Bool.and_eq_true,
      decide_eq_true_eq, error_category.op_lt_iff, error_category.op_eq_iff]
    omega

/-- C4: in any states, `a == b` implies `hash_value( a ) == hash_value( b )`. -/
theorem hash_value_eq_of_op_eq (a b : error_code) (h : a.op_eq b = true) :
    hash_value a = hash_value b := by
  simp only [error_code.op_eq, Bool.and_eq_true, beq_iff_eq, error_category.op_eq_iff] at h
  obtain ⟨hv, hid, haddr⟩ := h
  unfold hash_value
  simp only [hv, ← hid]
  by_cases h0 : a.category.id_ = 0
  · simp only [h0, if_true, haddr h0]
  · simp only [h0, if_false]

/-- C4 at a foreign code against a native one, and at the empty code against a native one:
the code adopted from the foreign value `( 5, category at address 7 )` equals the native code
`( 12, interop category )`, the default-constructed code equals `( 0, system category )`, and
each pair hashes alike. -/
theorem hash_value_eq_of_op_eq_witness :
    (error_code.ctor_std { val_ := 5, cat_ := { addr := 7, name := "user" } }).op_eq
        (error_code.ctor 12 detail.interop_category) = true ∧
    hash_value (error_code.ctor_std { val_ := 5, cat_ := { addr := 7, name := "user" } })
      = hash_value (error_code.ctor 12 detail.interop_category) ∧
    error_code.ctor_default.op_eq (error_code.ctor 0 system_category) = true ∧
    hash_value error_code.ctor_default = hash_value (error_code.ctor 0 system_category) :=
  ⟨by decide, hash_value_eq_of_op_eq _ _ (by decide),
   by decide, hash_value_eq_of_op_eq _ _ (by decide)⟩

/-- C5: a default-constructed `error_code` has `failed() == false`, `value() == 0` and
`category()` the system category. -/
theorem ctor_default_observers :
    error_code.ctor_default.failed = false ∧
    error_code.ctor_default.value = 0 ∧
    error_code.ctor_default.category = system_category ∧
    error_code.ctor_default.category.op_eq system_category = true :=
  ⟨rfl, rfl, rfl, by decide⟩

/-- C6: `system_category_default_error_condition_win32` maps 5 (`ERROR_ACCESS_DENIED_`) to
`permission_denied`, 80 (`ERROR_FILE_EXISTS_`) to `file_exists` and 0 to `success`, each a
condition of the generic category. -/
theorem win32_condition_examples :
    winapi.ERROR_ACCESS_DENIED_ = 5 ∧ winapi.ERROR_FILE_EXISTS_ = 80 ∧
    detail.system_category_default_error_condition_win32 5
      = errc.make_error_condition errc.errc_t.permission_denied ∧
    detail.system_category_default_error_condition_win32 80
      = errc.make_error_condition errc.errc_t.file_exists ∧
    detail.system_category_default_error_condition_win32 0
      = errc.make_error_condition errc.errc_t.success ∧
    (detail.system_category_default_error_condition_win32 5).cat_ = generic_category ∧
    (detail.system_category_default_error_condition_win32 80).cat_ = generic_category ∧
    (detail.system_category_default_error_condition_win32 0).cat_ = generic_category :=
  ⟨rfl, rfl, rfl, rfl, rfl, rfl, rfl, rfl⟩

/-- C7: for every `ev < 0` whose facility field `(ev >> 16) & 0x1fff` is 7,
`system_category_default_error_condition_win32( ev )` equals
`system_category_default_error_condition_win32( ev & 0xFFFF )`. -/
theorem win32_hresult_classified_as_code (ev : Int) (hneg : ev < 0)
    (hfac : detail.BOOST_SYSTEM_HRESULT_FACILITY ev = detail.BOOST_SYSTEM_FACILITY_WIN32) :
    detail.system_category_default_error_condition_win32 ev
      = detail.system_category_default_error_condition_win32
          (detail.BOOST_SYSTEM_HRESULT_CODE ev) := by
  have h1 : detail.win32_unpack ev = detail.BOOST_SYSTEM_HRESULT_CODE ev := by
    unfold detail.win32_unpack
    simp [detail.BOOST_SYSTEM_FAILED, hneg, hfac]
  rw [detail.win32_condition_eq, detail.win32_condition_eq, detail.win32_unpack_code, h1]

/-- C7 at the HRESULT 0x80070005 (the `int` -2147024891): it is negative, its facility is 7,
its low 16 bits are 5, and it is classified as the native code 5 is. -/
theorem win32_hresult_classified_as_code_witness :
    (-2147024891 : Int) < 0 ∧
    detail.BOOST_SYSTEM_HRESULT_FACILITY (-2147024891) = detail.BOOST_SYSTEM_FACILITY_WIN32 ∧
    detail.BOOST_SYSTEM_HRESULT_CODE (-2147024891) = 5 ∧
    detail.system_category_default_error_condition_win32 (-2147024891)
      = detail.system_category_default_error_condition_win32 5 :=
  have hfac : detail.BOOST_SYSTEM_HRESULT_FACILITY (-2147024891)
      = detail.BOOST_SYSTEM_FACILITY_WIN32 := by
    rw [detail.hresult_facility_eq]; decide
  have hcode : detail.BOOST_SYSTEM_HRESULT_CODE (-2147024891) = 5 := by
    rw [detail.hresult_code_eq]; decide
  ⟨by decide, hfac, hcode,
   (win32_hresult_classified_as_code (-2147024891) (by decide) hfac).trans
     (congrArg detail.system_category_default_error_condition_win32 hcode)⟩

/-- C8, as stated, fails at the HRESULT 0x8007FFFF (the `int` -2146959361): no case of the
switch applies to it, neither before nor after the unpacking, and the condition returned
carries 65535 under the system category, not the value passed in. -/
theorem win32_unclassified_loses_hresult :
    detail.win32_cases.lookup (-2146959361) = none ∧
    detail.win32_cases.lookup (detail.win32_unpack (-2146959361)) = none ∧
    detail.system_category_default_error_condition_win32 (-2146959361)
      = error_condition.ctor 65535 system_category ∧
    (detail.system_category_default_error_condition_win32 (-2146959361)).val_
      ≠ -2146959361 := by
  have hu : detail.win32_unpack (-2146959361) = 65535 := by
    rw [detail.win32_unpack_eq]; decide
  have hl : detail.win32_cases.lookup 65535 = none := by decide
  have hf : detail.system_category_default_error_condition_win32 (-2146959361)
      = error_condition.ctor 65535 system_category := by
    rw [detail.win32_condition_eq, hu, hl]
  refine ⟨by decide, by rw [hu]; exact hl, hf, ?_⟩
  rw [hf]
  decide

/-- C8, amended: when no case of the switch applies, the condition returned carries, under
the system category, the value the switch was entered with: `ev` itself unless `ev` is
negative with facility field 7, and `ev & 0xFFFF` in that case. -/
theorem win32_unclassified (ev : Int)
    (h : detail.win32_cases.lookup (detail.win32_unpack ev) = none) :
    detail.system_category_default_error_condition_win32 ev
      = error_condition.ctor (detail.win32_unpack ev) system_category ∧
    (¬ (ev < 0 ∧ detail.BOOST_SYSTEM_HRESULT_FACILITY ev = detail.BOOST_SYSTEM_FACILITY_WIN32) →
      detail.system_category_default_error_condition_win32 ev
        = error_condition.ctor ev system_category) ∧
    ((ev < 0 ∧ detail.BOOST_SYSTEM_HRESULT_FACILITY ev = detail.BOOST_SYSTEM_FACILITY_WIN32) →
      detail.system_category_default_error_condition_win32 ev
        = error_condition.ctor (detail.BOOST_SYSTEM_HRESULT_CODE ev) system_category) := by
  have h0 : detail.system_category_default_error_condition_win32 ev
      = error_condition.ctor (detail.win32_unpack ev) system_category := by
    rw [detail.win32_condition_eq, h]
  refine ⟨h0, fun hn => ?_, fun hp => ?_⟩
  · rw [h0]
    unfold detail.win32_unpack
    simp only [detail.BOOST_SYSTEM_FAILED, Bool.and_eq_true, decide_eq_true_eq, beq_iff_eq, hn,
      if_false]
  · rw [h0]
    unfold detail.win32_unpack
    simp only [detail.BOOST_SYSTEM_FAILED, Bool.and_eq_true, decide_eq_true_eq, beq_iff_eq, hp,
      and_self, if_true]

/-- C8 amended, at the native code 1234, which no case names: the condition returned is
`( 1234, system category )`. -/
theorem win32_unclassified_witness :
    detail.win32_cases.lookup (detail.win32_unpack 1234) = none ∧
    detail.system_category_default_error_condition_win32 1234
      = error_condition.ctor (detail.win32_unpack 1234) system_category ∧
    detail.win32_unpack 1234 = 1234 :=
  ⟨by decide, (win32_unclassified 1234 (by decide)).1, by decide⟩

/-- C9: for every text `t`, the normalization of `system_category_message_win32` applied to
`t` followed by a period, a carriage return and a line feed yields `t`; so the message
"Access is denied.", CR, LF is rendered as "Access is denied". -/
theorem normalize_message_strips_period_crlf (t : List Char) :
    detail.normalize_message (t ++ ['.', '\r', '\n']) = t ∧
    detail.system_category_message_win32 (some (t ++ ['.', '\r', '\n'])) = t ∧
    detail.system_category_message_win32 (some "Access is denied.\r\n".toList)
      = "Access is denied".toList := by
  have key : ∀ s : List Char, detail.normalize_message (s ++ ['.', '\r', '\n']) = s := by
    intro s
    have e1 : s ++ ['.', '\r', '\n'] = (s ++ ['.', '\r']) ++ ['\n'] := by simp
    have e2 : s ++ ['.', '\r'] = (s ++ ['.']) ++ ['\r'] := by simp
    unfold detail.normalize_message
    rw [e1, detail.strip_line_ends_append, if_pos (Or.inl rfl), e2,
      detail.strip_line_ends_append, if_pos (Or.inr rfl), detail.strip_line_ends_append,
      if_neg (by decide), detail.strip_period_append, if_pos rfl]
  exact ⟨key t, key t, key "Access is denied".toList⟩

/-- C10: the const conversion to `std::error_code` returns, for the code constructed from a
foreign value `e`, exactly `e`; for a default-constructed code,
`std::error_code( 0, system_category() )`; and for `error_code( v, cat )`,
`std::error_code( v, cat )`, whose value is `v` itself. -/
theorem to_std_per_state (e : std_error_code) (v : Int) (cat : error_category) :
    (error_code.ctor_std e).to_std = e ∧
    error_code.ctor_default.to_std = std_error_code.ctor 0 system_category ∧
    (error_code.ctor v cat).to_std = std_error_code.ctor v cat ∧
    (error_code.ctor v cat).to_std.value = v ∧
    (error_code.ctor v cat).to_std.category = cat.std_ := by
  rw [error_code.to_std_ctor]
  exact ⟨rfl, rfl, rfl, rfl, rfl⟩

/-- C11: for every `v` and `cat`, `error_code( v, cat ).failed()` equals
`detail::failed_impl( v, cat )`, which the constructor stores in the tag (3 when failed, 2
otherwise); for a category whose classification is "nonzero", such as the system category,
`failed()` is false for `v == 0` and true for every other `v`. -/
theorem failed_cached_at_construction (v : Int) (cat : error_category) :
    (error_code.ctor v cat).failed = detail.failed_impl v cat ∧
    ((error_code.ctor v cat).flags_ = 3 ↔ detail.failed_impl v cat = true) ∧
    ((error_code.ctor v cat).flags_ = 2 ↔ detail.failed_impl v cat = false) ∧
    ((∀ ev : Int, cat.failed ev = (ev != 0)) →
      ((error_code.ctor v cat).failed = true ↔ v ≠ 0)) ∧
    (error_code.ctor 0 system_category).failed = false ∧
    ((error_code.ctor v system_category).failed = true ↔ v ≠ 0) := by
  refine ⟨error_code.failed_ctor v cat, ?_, ?_, ?_, rfl, ?_⟩
  · unfold error_code.ctor
    cases detail.failed_impl v cat <;> simp
  · unfold error_code.ctor
    cases detail.failed_impl v cat <;> simp
  · intro h
    rw [error_code.failed_ctor, detail.failed_impl, h]
    simp
  · rw [error_code.failed_ctor, detail.failed_impl]
    simp [system_category]

/-- C11 at the system category: its classification is "nonzero", the code `( 5, system )` is
failed with tag 3 and the code `( 0, system )` is not failed, with tag 2. -/
theorem failed_cached_at_construction_witness :
    (∀ ev : Int, system_category.failed ev = (ev != 0)) ∧
    (error_code.ctor 5 system_category).failed = true ∧
    (error_code.ctor 5 system_category).flags_ = 3 ∧
    (error_code.ctor 0 system_category).failed = false ∧
    (error_code.ctor 0 system_category).flags_ = 2 :=
  ⟨fun _ => rfl,
   ((failed_cached_at_construction 5 system_category).2.2.2.1 (fun _ => rfl)).mpr (by decide),
   by decide,
   (failed_cached_at_construction 0 system_category).2.2.2.2.1,
   by decide⟩

/-- C12: the code constructed from a foreign value with integer `v` and category address `a`
has `value()` equal to `v + (a mod 1073741789)` taken modulo `2^32` and reinterpreted as a
signed 32-bit integer (which is `v + (a mod 1073741789)` itself when that sum is in the range
of `int`); a code whose tag is not 1, in particular a default-constructed or a native one,
has `value()` equal to the stored integer. -/
theorem value_per_state (v : Int) (a : Nat) (n : String) (w : Int) (cat : error_category)
    (ec : error_code) :
    (error_code.ctor_std { val_ := v, cat_ := { addr := a, name := n } }).value
      = spec_signed32 (v + ((a % 1073741789 : Nat) : Int)) ∧
    (-2147483648 ≤ v + ((a % 1073741789 : Nat) : Int) →
      v + ((a % 1073741789 : Nat) : Int) < 2147483648 →
      (error_code.ctor_std { val_ := v, cat_ := { addr := a, name := n } }).value
        = v + ((a % 1073741789 : Nat) : Int)) ∧
    error_code.ctor_default.value = 0 ∧
    (error_code.ctor w cat).value = w ∧
    (ec.flags_ ≠ 1 → ec.value = ec.d1_.val_) := by
  have h : a % 1073741789 % 4294967296 = a % 1073741789 := Nat.mod_eq_of_lt (by omega)
  have hv : (error_code.ctor_std { val_ := v, cat_ := { addr := a, name := n } }).value
      = spec_signed32 (v + ((a % 1073741789 : Nat) : Int)) := by
    rw [← to_int_unsigned_add]
    simp [error_code.value, error_code.ctor_std, error_code.d2_, std_error_code.value,
      std_error_code.category, h]
  refine ⟨hv, ?_, rfl, error_code.value_ctor w cat, ?_⟩
  · intro h1 h2
    rw [hv]
    unfold spec_signed32
    split_ifs <;> omega
  · intro hf
    simp [error_code.value, hf]

/-- C12 at the foreign value `( 5, category at address 2147483585 )`: the address is
`2 * 1073741789 + 7`, the sum 12 is in range, and `value()` is 12. -/
theorem value_per_state_witness :
    (-2147483648 : Int) ≤ 5 + ((2147483585 % 1073741789 : Nat) : Int) ∧
    (5 : Int) + ((2147483585 % 1073741789 : Nat) : Int) < 2147483648 ∧
    (error_code.ctor_std { val_ := 5, cat_ := { addr := 2147483585, name := "user" } }).value
      = 12 ∧
    error_code.ctor_default.flags_ ≠ 1 ∧
    error_code.ctor_default.value = error_code.ctor_default.d1_.val_ :=
  ⟨by decide, by decide,
   (value_per_state 5 2147483585 "user" 0 system_category error_code.ctor_default).2.1
     (by decide) (by decide),
   by decide,
   (value_per_state 5 2147483585 "user" 0 system_category error_code.ctor_default).2.2.2.2
     (by decide)⟩

/-- C13: `category()` is the system category for a default-constructed code, the interop
category for the code constructed from any foreign value, whatever that value's own
category, and `cat` for `error_code( v, cat )`; in general it is decided by the tag. -/
theorem category_per_state (e : std_error_code) (v : Int) (cat : error_category)
    (ec : error_code) :
    error_code.ctor_default.category = system_category ∧
    (error_code.ctor_std e).category = detail.interop_category ∧
    (error_code.ctor v cat).category = cat ∧
    (ec.flags_ = 0 → ec.category = system_category) ∧
    (ec.flags_ = 1 → ec.category = detail.interop_category) ∧
    (ec.flags_ ≠ 0 → ec.flags_ ≠ 1 → ec.category = error_code.deref ec.d1_.cat_) := by
  refine ⟨rfl, rfl, error_code.category_ctor v cat, ?_, ?_, ?_⟩
  · intro h
    simp [error_code.category, h]
  · intro h
    simp [error_code.category, h]
  · intro h0 h1
    simp [error_code.category, h0, h1]

/-- C13 at a default-constructed code (tag 0) and at a code adopted from a foreign value
(tag 1). -/
theorem category_per_state_witness :
    error_code.ctor_default.flags_ = 0 ∧
    error_code.ctor_default.category = system_category ∧
    (error_code.ctor_std { val_ := 5, cat_ := { addr := 7, name := "user" } }).flags_ = 1 ∧
    (error_code.ctor_std { val_ := 5, cat_ := { addr := 7, name := "user" } }).category
      = detail.interop_category ∧
    (error_code.ctor 5 generic_category).category
      = error_code.deref (error_code.ctor 5 generic_category).d1_.cat_ :=
  ⟨rfl,
   (category_per_state { val_ := 5, cat_ := { addr := 7, name := "user" } } 5 generic_category
     error_code.ctor_default).2.2.2.1 rfl,
   rfl,
   (category_per_state { val_ := 5, cat_ := { addr := 7, name := "user" } } 5 generic_category
     (error_code.ctor_std { val_ := 5, cat_ := { addr := 7, name := "user" } })).2.2.2.2.1 rfl,
   (category_per_state { val_ := 5, cat_ := { addr := 7, name := "user" } } 5 generic_category
     (error_code.ctor 5 generic_category)).2.2.2.2.2 (by decide) (by decide)⟩

/-- C14: whatever the code held before, after `assign( v, cat )` it is the code
`error_code( v, cat )`: tag 2 or 3, the native pair `( v, cat )` in the storage, and the
same `value()`, `category()`, `failed()` and foreign conversion; after `clear()` it is the
default-constructed code. -/
theorem assign_clear_reset (ec : error_code) (v : Int) (cat : error_category) :
    ec.assign v cat = error_code.ctor v cat ∧
    ((ec.assign v cat).flags_ = 2 ∨ (ec.assign v cat).flags_ = 3) ∧
    (ec.assign v cat).u = error_code.storage.d1_ { val_ := v, cat_ := some cat } ∧
    (ec.assign v cat).value = v ∧
    (ec.assign v cat).category = cat ∧
    (ec.assign v cat).failed = detail.failed_impl v cat ∧
    (ec.assign v cat).to_std = std_error_code.ctor v cat ∧
    ec.clear = error_code.ctor_default ∧
    ec.clear.flags_ = 0 ∧
    ec.clear.value = 0 ∧
    ec.clear.category = system_category ∧
    ec.clear.failed = false ∧
    ec.clear.to_std = std_error_code.ctor 0 system_category :=
  ⟨rfl, error_code.ctor_flags v cat, rfl, error_code.value_ctor v cat,
   error_code.category_ctor v cat, error_code.failed_ctor v cat, error_code.to_std_ctor v cat,
   rfl, rfl, rfl, rfl, rfl, rfl⟩

/-- C15: for a code `c` in any state the non-const conversion `operator T& ()` returns the
foreign value that the const conversion of `c` returns, leaves `c` with tag 1 and that value
in `d2_` (for a code whose tag and storage agree: leaves exactly the code constructed from
that value), and applying it again, any number of times, returns the same value and leaves
the same code. -/
theorem convert_caches_foreign (c : error_code) (n : Nat) :
    c.to_std_ref.1 = c.to_std ∧
    c.to_std_ref.2.flags_ = 1 ∧
    c.to_std_ref.2.d2_ = c.to_std ∧
    c.to_std_ref.2.to_std = c.to_std ∧
    c.to_std_ref.2.to_std_ref = (c.to_std, c.to_std_ref.2) ∧
    Nat.iterate (fun x : error_code => x.to_std_ref.2) (n + 1) c = c.to_std_ref.2 ∧
    ((c.flags_ = 1 → c.u.holds_foreign = true) →
      c.to_std_ref.2 = error_code.ctor_std c.to_std) := by
  have h1 : c.to_std_ref.1 = c.to_std := by
    by_cases h : c.flags_ = 1
    · rw [error_code.to_std_ref_of_foreign c h, error_code.to_std_of_foreign c h]
    · rw [error_code.to_std_ref_of_not_foreign c h]
  have h3 : c.to_std_ref.2.d2_ = c.to_std := by
    by_cases h : c.flags_ = 1
    · rw [error_code.to_std_ref_of_foreign c h, error_code.to_std_of_foreign c h]
    · rw [error_code.to_std_ref_of_not_foreign c h]; rfl
  have h4 : c.to_std_ref.2.to_std = c.to_std := by
    rw [error_code.to_std_of_foreign _ (error_code.to_std_ref_flags c), h3]
  refine ⟨h1, error_code.to_std_ref_flags c, h3, h4, ?_, ?_, ?_⟩
  · rw [error_code.to_std_ref_of_foreign _ (error_code.to_std_ref_flags c), h3]
  · induction n with
    | zero => rfl
    | succ k ih =>
      rw [Function.iterate_succ_apply', ih]
      exact error_code.to_std_ref_snd_fixed c
  · intro hu
    by_cases h : c.flags_ = 1
    · rw [error_code.to_std_ref_of_foreign c h, error_code.to_std_of_foreign c h]
      have hf := hu h
      obtain ⟨u, f⟩ := c
      cases u with
      | d1_ d => simp [error_code.storage.holds_foreign] at hf
      | d2_ e =>
        simp only at h
        subst h
        rfl
    · rw [error_code.to_std_ref_of_not_foreign c h]

/-- C15 at the native code `( 5, system )`: the conversion returns `( 5, system )` as a
foreign value and leaves the code constructed from that foreign value. -/
theorem convert_caches_foreign_witness :
    ((error_code.ctor 5 system_category).flags_ = 1 →
      (error_code.ctor 5 system_category).u.holds_foreign = true) ∧
    (error_code.ctor 5 system_category).to_std_ref.1 = std_error_code.ctor 5 system_category ∧
    (error_code.ctor 5 system_category).to_std_ref.2
      = error_code.ctor_std (error_code.ctor 5 system_category).to_std :=
  ⟨by decide, by decide,
   (convert_caches_foreign (error_code.ctor 5 system_category) 0).2.2.2.2.2.2 (by decide)⟩

/-- C16: `hash_value( ec )` is
`(((0xCBF29CE484222325 xor id) * 0x100000001B3 mod 2^64) xor u) * 0x100000001B3 mod 2^64`,
with `id` the numeric identity of `category()` if nonzero and its address otherwise, and `u`
the `unsigned` conversion of `value()`, below `2^32`; two codes with the same `value()` and
categories of the same identity have the same hash. -/
theorem hash_value_formula (ec other : error_code) :
    hash_value ec
      = (((0xCBF29CE484222325 ^^^
            (if ec.category.id_ = 0 then ec.category.addr else ec.category.id_))
          * 0x00000100000001B3 % 2 ^ 64) ^^^ to_unsigned ec.value)
        * 0x00000100000001B3 % 2 ^ 64 ∧
    to_unsigned ec.value < 2 ^ 32 ∧
    (to_unsigned ec.value : Int) = ec.value % 2 ^ 32 ∧
    (other.value = ec.value → other.category.op_eq ec.category = true →
      hash_value other = hash_value ec) := by
  refine ⟨rfl, ?_, ?_, hash_value_congr other ec⟩
  · unfold to_unsigned
    omega
  · unfold to_unsigned
    omega

/-- C16 at the code adopted from the foreign value `( 5, category at address 7 )` and the
native code `( 12, interop )`: same `value()`, same category identity, same hash. -/
theorem hash_value_formula_witness :
    (error_code.ctor_std { val_ := 5, cat_ := { addr := 7, name := "user" } }).value
      = (error_code.ctor 12 detail.interop_category).value ∧
    (error_code.ctor_std { val_ := 5, cat_ := { addr := 7, name := "user" } }).category.op_eq
      (error_code.ctor 12 detail.interop_category).category = true ∧
    hash_value (error_code.ctor_std { val_ := 5, cat_ := { addr := 7, name := "user" } })
      = hash_value (error_code.ctor 12 detail.interop_category) :=
  ⟨by decide, by decide,
   (hash_value_formula (error_code.ctor 12 detail.interop_category)
     (error_code.ctor_std { val_ := 5, cat_ := { addr := 7, name := "user" } })).2.2.2
     (by decide) (by decide)⟩

/-- C17: the foreign values `( 8, category at address 0x1000 )` and
`( 0, category at address 0x1008 )` differ in value and in category, yet the codes
constructed from them have the same `value()` (4104) and the same `category()`, compare
equal, hash alike, and convert to different foreign values. -/
theorem foreign_value_collision :
    ∃ e1 e2 : std_error_code,
      e1.val_ ≠ e2.val_ ∧ e1.cat_ ≠ e2.cat_ ∧
      (error_code.ctor_std e1).value = (error_code.ctor_std e2).value ∧
      (error_code.ctor_std e1).category = (error_code.ctor_std e2).category ∧
      (error_code.ctor_std e1).op_eq (error_code.ctor_std e2) = true ∧
      hash_value (error_code.ctor_std e1) = hash_value (error_code.ctor_std e2) ∧
      (error_code.ctor_std e1).to_std ≠ (error_code.ctor_std e2).to_std :=
  ⟨{ val_ := 8, cat_ := { addr := 0x1000, name := "first" } },
   { val_ := 0, cat_ := { addr := 0x1008, name := "second" } },
   by decide, by decide, by decide, rfl, by decide,
   hash_value_congr _ _ (by decide) (by decide), by decide⟩

/-- C18: written to a stream, a code whose tag is not 1 (a default-constructed or native
one) appears as `category().name()`, a colon and the decimal `value()`; a code adopted from a
foreign value appears as "std:", the name of the foreign value's own category, a colon and
the foreign value's own integer, so its output begins with "std:". -/
theorem stream_output (os : String) (v : Int) (cat : error_category) (e : std_error_code)
    (ec : error_code) :
    (ec.flags_ ≠ 1 → ec.op_shl os = os ++ ec.category.name ++ ":" ++ toString ec.value) ∧
    error_code.ctor_default.op_shl os = os ++ "system" ++ ":" ++ "0" ∧
    (error_code.ctor v cat).op_shl os = os ++ cat.name ++ ":" ++ toString v ∧
    (error_code.ctor_std e).op_shl os = os ++ "std:" ++ e.cat_.name ++ ":" ++ toString e.val_ ∧
    (error_code.ctor_std e).op_shl "" = "std:" ++ (e.cat_.name ++ ":" ++ toString e.val_) ∧
    (error_code.ctor (-5) system_category).op_shl "" = "system:-5" ∧
    (error_code.ctor_std { val_ := 5, cat_ := { addr := 7, name := "user" } }).op_shl ""
      = "std:user:5" ∧
    (error_code.ctor_std { val_ := 5, cat_ := { addr := 7, name := "user" } }).value = 12 := by
  refine ⟨?_, rfl, ?_, rfl, ?_, by decide, by decide, by decide⟩
  · intro h
    simp [error_code.op_shl, h]
  · have h := error_code.ctor_flags v cat
    have h1 : (error_code.ctor v cat).flags_ ≠ 1 := by omega
    simp [error_code.op_shl, h1, error_code.value_ctor, error_code.category_ctor]
  · show "" ++ "std:" ++ e.cat_.name ++ ":" ++ toString e.val_ = _
    simp [String.append_assoc]

/-- C18 at the native code `( 5, generic )`, whose tag is 3: the output is "generic:5". -/
theorem stream_output_witness :
    (error_code.ctor 5 generic_category).flags_ ≠ 1 ∧
    (error_code.ctor 5 generic_category).op_shl "" = "generic:5" :=
  ⟨by decide,
   ((stream_output "" 5 generic_category { val_ := 0, cat_ := { addr := 0, name := "" } }
      (error_code.ctor 5 generic_category)).1 (by decide)).trans (by decide)⟩

/-- C19: every object reached by one of the three constructors followed by any sequence of
`assign`, `clear` and non-const conversions satisfies the state invariant: its tag is 0, 1, 2
or 3; the tag is 1 exactly when the storage holds a constructed `std::error_code`, and
otherwise the storage holds the native pair; and with tag 0 the stored value is 0. -/
theorem invariant_reachable (k : error_code.construction) (ops : List error_code.operation) :
    (error_code.run k ops).invariant ∧
    ((error_code.run k ops).flags_ = 0 ∨ (error_code.run k ops).flags_ = 1 ∨
      (error_code.run k ops).flags_ = 2 ∨ (error_code.run k ops).flags_ = 3) ∧
    ((error_code.run k ops).flags_ = 1 ↔ (error_code.run k ops).u.holds_foreign = true) ∧
    ((error_code.run k ops).flags_ ≠ 1 ↔ (error_code.run k ops).u.holds_native = true) ∧
    ((error_code.run k ops).flags_ = 0 → (error_code.run k ops).d1_.val_ = 0) ∧
    ¬ ((error_code.run k ops).flags_ = 1 ∧ (error_code.run k ops).u.holds_native = true) ∧
    ¬ ((error_code.run k ops).flags_ ≠ 1 ∧ (error_code.run k ops).u.holds_foreign = true) := by
  have h : (error_code.run k ops).invariant :=
    error_code.invariant_foldl ops k.result (error_code.invariant_result k)
  obtain ⟨h1, h2, h3, h4, _⟩ := h
  refine ⟨error_code.invariant_foldl ops k.result (error_code.invariant_result k),
    h1, h2, h3, h4, ?_, ?_⟩
  · rintro ⟨ha, hb⟩
    exact (h3.mpr hb) ha
  · rintro ⟨ha, hb⟩
    exact ha (h2.mpr hb)

/-- C19 on a concrete sequence: a native code, converted, cleared, converted again and
assigned ends with tag 3 and the native pair in the storage; the run cut after the second
conversion ends with tag 1 and a foreign value in the storage. -/
theorem invariant_reachable_witness :
    (error_code.run (.native 5 system_category)
      [.convert, .clear, .convert, .assign 7 generic_category]).flags_ = 3 ∧
    (error_code.run (.native 5 system_category)
      [.convert, .clear, .convert, .assign 7 generic_category]).u.holds_native = true ∧
    (error_code.run (.native 5 system_category) [.convert, .clear, .convert]).flags_ = 1 ∧
    (error_code.run (.native 5 system_category)
      [.convert, .clear, .convert]).u.holds_foreign = true :=
  ⟨by decide,
   ((invariant_reachable (.native 5 system_category)
      [.convert, .clear, .convert, .assign 7 generic_category]).2.2.2.1).mp (by decide),
   by decide,
   ((invariant_reachable (.native 5 system_category)
      [.convert, .clear, .convert]).2.2.1).mp (by decide)⟩

/-- C20: `system_category_default_error_condition_win32( ev )` is the condition `success`
exactly when `ev` is 0 or `ev` is negative with facility field 7 and low 16 bits zero, as
0x80070000 (the `int` -2147024896) is; for every other `ev` the result is a condition that
differs from `success`, also under the comparison of conditions. -/
theorem win32_success_iff (ev : Int) :
    (detail.system_category_default_error_condition_win32 ev
        = errc.make_error_condition errc.errc_t.success ↔
      (ev = 0 ∨ (ev < 0 ∧
        detail.BOOST_SYSTEM_HRESULT_FACILITY ev = detail.BOOST_SYSTEM_FACILITY_WIN32 ∧
        detail.BOOST_SYSTEM_HRESULT_CODE ev = 0))) ∧
    ((detail.system_category_default_error_condition_win32 ev).op_eq
        (errc.make_error_condition errc.errc_t.success) = true ↔
      (ev = 0 ∨ (ev < 0 ∧
        detail.BOOST_SYSTEM_HRESULT_FACILITY ev = detail.BOOST_SYSTEM_FACILITY_WIN32 ∧
        detail.BOOST_SYSTEM_HRESULT_CODE ev = 0))) ∧
    detail.system_category_default_error_condition_win32 (-2147024896)
      = errc.make_error_condition errc.errc_t.success := by
  have h0 : detail.win32_cases.lookup 0 = some errc.errc_t.success := by decide
  have key : ∀ x : Int,
      (detail.system_category_default_error_condition_win32 x
          = errc.make_error_condition errc.errc_t.success ↔ detail.win32_unpack x = 0) ∧
      ((detail.system_category_default_error_condition_win32 x).op_eq
          (errc.make_error_condition errc.errc_t.success) = true ↔
        detail.win32_unpack x = 0) := by
    intro x
    rw [detail.win32_condition_eq]
    cases hl : detail.win32_cases.lookup (detail.win32_unpack x) with
    | none =>
      have hne : detail.win32_unpack x ≠ 0 := by
        intro hz
        rw [hz, h0] at hl
        exact absurd hl (by simp)
      constructor
      · constructor
        · intro h
          exact absurd (congrArg error_condition.cat_ h) system_ne_generic
        · intro h
          exact absurd h hne
      · constructor
        · intro h
          simp only [error_condition.op_eq, error_condition.ctor, errc.make_error_condition,
            Bool.and_eq_true] at h
          exact absurd h.2 (by decide)
        · intro h
          exact absurd h hne
    | some e =>
      have hmem := list_lookup_mem _ _ _ hl
      have hiff : e = errc.errc_t.success ↔ detail.win32_unpack x = 0 := by
        constructor
        · intro he
          exact detail.win32_cases_success _ hmem he
        · intro hz
          rw [hz, h0] at hl
          exact (Option.some.inj hl).symm
      constructor
      · constructor
        · intro h
          have hv := congrArg error_condition.val_ h
          exact hiff.mp ((errc.to_int_eq_zero e).mp hv)
        · intro h
          rw [hiff.mpr h]
      · constructor
        · intro h
          simp only [error_condition.op_eq, error_condition.ctor, errc.make_error_condition,
            Bool.and_eq_true, beq_iff_eq] at h
          exact hiff.mp ((errc.to_int_eq_zero e).mp h.1)
        · intro h
          rw [hiff.mpr h]
          exact (by decide : (errc.make_error_condition errc.errc_t.success).op_eq
            (errc.make_error_condition errc.errc_t.success) = true)
  refine ⟨?_, ?_, ?_⟩
  · rw [(key ev).1, detail.win32_unpack_eq_zero]
  · rw [(key ev).2, detail.win32_unpack_eq_zero]
  · rw [(key (-2147024896)).1, detail.win32_unpack_eq]
    decide

/-- C21: the code constructed from a foreign value `e` has `failed()` true exactly when the
integer of `e` is nonzero, whatever the category of `e`; so for a category whose address `a`
is not a multiple of 1073741789 the code of the foreign value `( 0, that category )` has
`value() == a mod 1073741789`, which is not 0, while `failed()` is false (and the code of
`( -(a mod 1073741789), that category )` has `value() == 0` while `failed()` is true). -/
theorem failed_foreign_raw_value (e : std_error_code) (a : Nat) (n : String)
    (ha : a % 1073741789 ≠ 0) :
    ((error_code.ctor_std e).failed = true ↔ e.val_ ≠ 0) ∧
    (∀ c : std_error_category,
      (error_code.ctor_std { val_ := e.val_, cat_ := c }).failed
        = (error_code.ctor_std e).failed) ∧
    (error_code.ctor_std { val_ := 0, cat_ := { addr := a, name := n } }).value
      = ((a % 1073741789 : Nat) : Int) ∧
    (error_code.ctor_std { val_ := 0, cat_ := { addr := a, name := n } }).value ≠ 0 ∧
    (error_code.ctor_std { val_ := 0, cat_ := { addr := a, name := n } }).failed = false ∧
    (error_code.ctor_std
      { val_ := -((a % 1073741789 : Nat) : Int), cat_ := { addr := a, name := n } }).value
      = 0 ∧
    (error_code.ctor_std
      { val_ := -((a % 1073741789 : Nat) : Int), cat_ := { addr := a, name := n } }).failed
      = true := by
  have hlt : a % 1073741789 < 1073741789 := Nat.mod_lt _ (by decide)
  have hval : (error_code.ctor_std { val_ := 0, cat_ := { addr := a, name := n } }).value
      = ((a % 1073741789 : Nat) : Int) := by
    rw [error_code.value_ctor_std]
    unfold spec_signed32
    simp only []
    split_ifs <;> omega
  refine ⟨?_, ?_, hval, ?_, ?_, ?_, ?_⟩
  · rw [error_code.failed_ctor_std]
    simp
  · intro c
    rw [error_code.failed_ctor_std, error_code.failed_ctor_std]
  · rw [hval]
    omega
  · rw [error_code.failed_ctor_std]
    rfl
  · rw [error_code.value_ctor_std]
    unfold spec_signed32
    simp only []
    split_ifs <;> omega
  · rw [error_code.failed_ctor_std]
    simp only [bne_iff_ne, ne_eq]
    omega

/-- C21 at the foreign value `( 0, category at address 0x602060 )`: the address is not a
multiple of 1073741789, `value()` is 6299744 and `failed()` is false. -/
theorem failed_foreign_raw_value_witness :
    0x602060 % 1073741789 ≠ 0 ∧
    (error_code.ctor_std { val_ := 0, cat_ := { addr := 0x602060, name := "system" } }).value
      = 6299744 ∧
    (error_code.ctor_std { val_ := 0, cat_ := { addr := 0x602060, name := "system" } }).value
      ≠ 0 ∧
    (error_code.ctor_std { val_ := 0, cat_ := { addr := 0x602060, name := "system" } }).failed
      = false :=
  ⟨by decide,
   (failed_foreign_raw_value { val_ := 0, cat_ := { addr := 0x602060, name := "system" } }
     0x602060 "system" (by decide)).2.2.1,
   (failed_foreign_raw_value { val_ := 0, cat_ := { addr := 0x602060, name := "system" } }
     0x602060 "system" (by decide)).2.2.2.1,
   (failed_foreign_raw_value { val_ := 0, cat_ := { addr := 0x602060, name := "system" } }
     0x602060 "system" (by decide)).2.2.2.2.1⟩

end boost.system
